import Mathlib

/-!
Formal model of the chat session controller of the `nila` repository
(the `Chat` component in the frontend source).

The embedding follows the source closely:

* `Message` mirrors the `Message` interface: a numeric `id` (milliseconds
  from `Date.now()`), a `text`, a `sender` tag (`user | nila`; the
  specification calls the second value "assistant"), and a formatted `time`
  string.
* `AppState` collects the React state of the component (`messages`,
  `inputText`, `isTyping`), the session credential held in browser storage
  under the key `token`, and the list of navigation intents issued via
  `navigate` (modelled as an append-only list of route strings).
* `revealFrom` is the staged reply player `displayBubblesWithDelay`,
  with the timer callbacks fully elapsed.  The wall clock and the locale
  time formatter observed inside the callback for fragment `index` are
  abstracted as a parameter `mint : Nat → Nat × String` giving the pair
  `(Date.now(), toLocaleTimeString())` at that callback.
* `delayFor` is the delay computation of `displayBubblesWithDelay`
  (lines with `baseDelay`, `randomVar`, `delay`); the value of
  `Math.random()` is abstracted as a rational parameter `r` in `[0, 1)`.
* `handleSend` and `fetchHistory` model the corresponding source
  functions; the outcome of the single network call each makes is a
  parameter (`SendResult` / `FetchResult`), where a failed axios call
  carries an optional HTTP status (absent for transport-level failures),
  matching the check `error.response?.status === 401`.
-/

namespace Nila

/-- Sender tag of a chat message: the source uses the closed union
`user | nila`; the specification names the second value "assistant". -/
inductive Sender where
  | user : Sender
  | nila : Sender
deriving DecidableEq, Repr

/-- A chat message, mirroring the `Message` interface of the source:
`id : number` (minted from `Date.now()`), `text : string`,
`sender : user | nila`, `time : string` (locale-formatted). -/
structure Message where
  id : Nat
  text : String
  sender : Sender
  time : String
deriving DecidableEq, Repr

/-- The state of the chat controller: the three React state cells
(`messages`, `inputText`, `isTyping`), the session credential stored
under the `token` key of browser storage, and the accumulated navigation
intents (each `navigate` call appends its route). -/
structure AppState where
  messages : List Message
  inputText : String
  isTyping : Bool
  token : Option String
  redirects : List String
deriving DecidableEq, Repr

/-- The assistant message minted inside the timer callback of
`displayBubblesWithDelay` for fragment `index`:
`id = Date.now() + index`, `text = bubbles[index]`, `sender = nila`,
`time = toLocaleTimeString()`.  `mint index` supplies the pair
`(Date.now(), toLocaleTimeString())` observed in that callback. -/
def mkNilaMsg (mint : Nat → Nat × String) (bubbles : List String) (index : Nat)
    (h : index < bubbles.length) : Message :=
  { id := (mint index).1 + index
    text := bubbles.get ⟨index, h⟩
    sender := Sender.nila
    time := (mint index).2 }

/-- The messages appended by `displayBubblesWithDelay` from fragment
`index` on: one minted assistant message per remaining fragment, in
input order. -/
def mintedMsgs (mint : Nat → Nat × String) (bubbles : List String)
    (index : Nat) : List Message :=
  if h : bubbles.length ≤ index then []
  else mkNilaMsg mint bubbles index (by omega) :: mintedMsgs mint bubbles (index + 1)
termination_by bubbles.length - index
decreasing_by
  simp_wf
  omega

/-- `displayBubblesWithDelay(bubbles, index)` with all timer callbacks
elapsed.  Source control flow: if `index >= bubbles.length` set
`isTyping := false` and stop; otherwise the scheduled callback appends
the minted assistant message, then either sets `isTyping := true` and
recurses (`index < bubbles.length - 1`) or sets `isTyping := false`. -/
def revealFrom (mint : Nat → Nat × String) (bubbles : List String) (index : Nat)
    (s : AppState) : AppState :=
  if h : bubbles.length ≤ index then
    { s with isTyping := false }
  else if index < bubbles.length - 1 then
    revealFrom mint bubbles (index + 1)
      { s with
          messages := s.messages ++ [mkNilaMsg mint bubbles index (by omega)]
          isTyping := true }
  else
    { s with
        messages := s.messages ++ [mkNilaMsg mint bubbles index (by omega)]
        isTyping := false }
termination_by bubbles.length - index
decreasing_by
  simp_wf
  omega

/-- The base delay constant of `displayBubblesWithDelay`:
`const baseDelay = 800`. -/
def baseDelay : ℚ := 800

/-- The jitter `randomVar = Math.random() * 500`, with the value of
`Math.random()` abstracted as `r`. -/
def jitter (r : ℚ) : ℚ := r * 500

/-- The delay of the reveal at `index`:
`delay = index === 0 ? baseDelay + randomVar : (baseDelay / 2) + randomVar`. -/
def delayFor (index : Nat) (r : ℚ) : ℚ :=
  if index = 0 then baseDelay + jitter r else baseDelay / 2 + jitter r

/-- The sequence of delays scheduled by a full run of
`displayBubblesWithDelay(bubbles, 0)`, one per fragment, where `rand i`
is the `Math.random()` draw of the reveal at index `i`. -/
def scheduledDelays (rand : Nat → ℚ) (bubbles : List String) : List ℚ :=
  (List.range bubbles.length).map (fun i => delayFor i (rand i))

/-- Outcome of the `axios.post` call of `handleSend`: success carries the
reply fragment batch `response.data.messages`; failure carries the optional
HTTP status of the error (absent when the service is unreachable),
matching the source check `error.response?.status === 401`. -/
inductive SendResult where
  | ok : List String → SendResult
  | err : Option Nat → SendResult
deriving DecidableEq, Repr

/-- Outcome of the `axios.get` call of `fetchHistory`: success carries the
history `response.data`; failure carries the optional HTTP status. -/
inductive FetchResult where
  | ok : List Message → FetchResult
  | err : Option Nat → FetchResult
deriving DecidableEq, Repr

/-- The JavaScript string method `trim()` used by the guard
`!inputText.trim()` of `handleSend`: remove whitespace from both ends of
the string.  Embedded structurally (drop leading whitespace, then
trailing whitespace via reverse) so that it is kernel-computable. -/
def jsTrim (t : String) : String :=
  { data :=
      ((t.data.dropWhile Char.isWhitespace).reverse.dropWhile
        Char.isWhitespace).reverse }

/-- The user message minted by `handleSend`: `id = Date.now()`,
`text = inputText` (the raw, untrimmed input), `sender = user`,
`time = toLocaleTimeString()`. -/
def mkUserMsg (now : Nat) (ts : String) (text : String) : Message :=
  { id := now, text := text, sender := Sender.user, time := ts }

/-- A call of `navigate` with the login route: appends the route to the navigation
intents. -/
def pushRedirect (s : AppState) : AppState :=
  { s with redirects := s.redirects ++ ["/login"] }

/-- The synchronous part of `handleSend` once both guards have passed:
append the optimistic user message, clear the input field, set the
typing flag.  `now` and `ts` are `Date.now()` and the formatted time at
the send. -/
def sendOptimistic (now : Nat) (ts : String) (s : AppState) : AppState :=
  { s with
      messages := s.messages ++ [mkUserMsg now ts s.inputText]
      inputText := ""
      isTyping := true }

/-- The continuation of `handleSend` after the `axios.post` call
resolves: on success hand the batch to `displayBubblesWithDelay(·, 0)`;
on failure set the typing flag to false and, exactly when the status is
401, navigate to login.  Note the source does not remove the stored
token in this catch branch. -/
def handleSendOutcome (mint : Nat → Nat × String) (res : SendResult)
    (s : AppState) : AppState :=
  match res with
  | SendResult.ok bubbles => revealFrom mint bubbles 0 s
  | SendResult.err status =>
      if status = some 401 then pushRedirect { s with isTyping := false }
      else { s with isTyping := false }

/-- `handleSend`, with the network outcome as a parameter and all reply
timers elapsed.  Source order of the guards: first the token check
(absent token navigates to login and returns), then the
empty-trimmed-input check (returns with no effect).  The returned
boolean records whether the service was called. -/
def handleSend (mint : Nat → Nat × String) (now : Nat) (ts : String)
    (res : SendResult) (s : AppState) : AppState × Bool :=
  match s.token with
  | none => (pushRedirect s, false)
  | some _ =>
      if jsTrim s.inputText = "" then (s, false)
      else (handleSendOutcome mint res (sendOptimistic now ts s), true)

/-- The `fetchHistory` effect run at controller activation, with the
network outcome as a parameter: absent token navigates to login without
calling the service; success replaces `messages` with the response data;
a 401 failure removes the stored token and navigates to login; any other
failure only logs.  The returned boolean records whether the service was
called. -/
def fetchHistory (res : FetchResult) (s : AppState) : AppState × Bool :=
  match s.token with
  | none => (pushRedirect s, false)
  | some _ =>
      match res with
      | FetchResult.ok hist => ({ s with messages := hist }, true)
      | FetchResult.err status =>
          if status = some 401 then (pushRedirect { s with token := none }, true)
          else (s, true)

/-- The state of a live (possibly unmounted) instance of the component,
for reasoning about teardown: the React state cells, the stored token,
and whether the component is still mounted. -/
structure LiveState where
  messages : List Message
  isTyping : Bool
  token : Option String
  mounted : Bool
deriving DecidableEq, Repr

/-- A `setMessages` call as dispatched by the component: per React
semantics, a state update dispatched after the component has unmounted
is discarded. -/
def setMessagesLive (f : List Message → List Message) (s : LiveState) : LiveState :=
  if s.mounted then { s with messages := f s.messages } else s

/-- A `setIsTyping` call as dispatched by the component; updates after
unmount are discarded. -/
def setTypingLive (b : Bool) (s : LiveState) : LiveState :=
  if s.mounted then { s with isTyping := b } else s

/-- Teardown of the controller (unmount).  The source registers no
effect cleanup function and never calls `clearTimeout`, so teardown
only unmounts the component: any pending reveal timer remains scheduled
and its callback will still run. -/
def teardown (s : LiveState) : LiveState :=
  { s with mounted := false }

/-- The body of the timer callback scheduled by
`displayBubblesWithDelay(bubbles, index)` when it later fires: mint the
assistant message, dispatch `setMessages`, then dispatch `setIsTyping`
(true when more fragments remain, false on the last).  The callback
itself performs no mounted-check and never touches the stored token. -/
def fireReveal (mint : Nat → Nat × String) (bubbles : List String) (index : Nat)
    (s : LiveState) : LiveState :=
  if h : index < bubbles.length then
    setTypingLive (decide (index < bubbles.length - 1))
      (setMessagesLive (fun ms => ms ++ [mkNilaMsg mint bubbles index h]) s)
  else s

/-- Firing a sequence of pending reveal timers in order. -/
def applyFires (mint : Nat → Nat × String) (fires : List (List String × Nat))
    (s : LiveState) : LiveState :=
  fires.foldl (fun st bi => fireReveal mint bi.1 bi.2 st) s

/-- Closed form of a full reveal run: starting at any `index`, the run
appends exactly the minted messages for the remaining fragments and ends
with the typing flag false, leaving every other state component
untouched. -/
theorem revealFrom_eq (mint : Nat → Nat × String) (bubbles : List String) :
    ∀ (index : Nat) (s : AppState),
      revealFrom mint bubbles index s =
        { s with
            messages := s.messages ++ mintedMsgs mint bubbles index
            isTyping := false } := by
  have key : ∀ (k index : Nat) (s : AppState), bubbles.length - index ≤ k →
      revealFrom mint bubbles index s =
        { s with
            messages := s.messages ++ mintedMsgs mint bubbles index
            isTyping := false } := by
    intro k
    induction k with
    | zero =>
        intro index s hk
        have hlen : bubbles.length ≤ index := by omega
        unfold revealFrom mintedMsgs
        simp [hlen]
    | succ k ih =>
        intro index s hk
        by_cases hlen : bubbles.length ≤ index
        · unfold revealFrom mintedMsgs
          simp [hlen]
        · by_cases hlast : index < bubbles.length - 1
          · conv_lhs => unfold revealFrom
            rw [dif_neg hlen, if_pos hlast,
              ih (index + 1) _ (by omega)]
            conv_rhs => unfold mintedMsgs
            rw [dif_neg hlen]
            simp
          · conv_lhs => unfold revealFrom
            rw [dif_neg hlen, if_neg hlast]
            conv_rhs => unfold mintedMsgs
            rw [dif_neg hlen]
            have htail : bubbles.length ≤ index + 1 := by omega
            conv_rhs => unfold mintedMsgs
            rw [dif_pos htail]
  intro index s
  exact key (bubbles.length - index) index s le_rfl

/-- Shape of the minted messages: projected to `(text, sender)`, they are
exactly the remaining fragments, each tagged with the assistant sender,
in input order. -/
theorem mintedMsgs_map (mint : Nat → Nat × String) (bubbles : List String) :
    ∀ index : Nat,
      (mintedMsgs mint bubbles index).map (fun m => (m.text, m.sender)) =
        (bubbles.drop index).map (fun b => (b, Sender.nila)) := by
  have key : ∀ (k index : Nat), bubbles.length - index ≤ k →
      (mintedMsgs mint bubbles index).map (fun m => (m.text, m.sender)) =
        (bubbles.drop index).map (fun b => (b, Sender.nila)) := by
    intro k
    induction k with
    | zero =>
        intro index hk
        have hlen : bubbles.length ≤ index := by omega
        unfold mintedMsgs
        rw [dif_pos hlen, List.drop_eq_nil_of_le hlen]
        simp
    | succ k ih =>
        intro index hk
        by_cases hlen : bubbles.length ≤ index
        · unfold mintedMsgs
          rw [dif_pos hlen, List.drop_eq_nil_of_le hlen]
          simp
        · unfold mintedMsgs
          rw [dif_neg hlen]
          have hidx : index < bubbles.length := by omega
          rw [List.drop_eq_getElem_cons hidx]
          simp only [List.map_cons, ih (index + 1) (by omega)]
          simp [mkNilaMsg]
  intro index
  exact key (bubbles.length - index) index le_rfl

/-- C1: for every non-empty fragment batch handed to the staged reply
player, exactly one assistant message whose text equals the
corresponding fragment is appended to the message log per fragment, in
the input order of the batch, and the typing flag is false strictly after the
last reveal. -/
theorem C1_staged_player_appends_per_fragment (mint : Nat → Nat × String)
    (bubbles : List String) (s : AppState) (_hne : bubbles ≠ []) :
    (revealFrom mint bubbles 0 s).messages =
        s.messages ++ mintedMsgs mint bubbles 0
      ∧ (mintedMsgs mint bubbles 0).map (fun m => (m.text, m.sender)) =
        bubbles.map (fun b => (b, Sender.nila))
      ∧ (revealFrom mint bubbles 0 s).isTyping = false := by
  have h1 := revealFrom_eq mint bubbles 0 s
  have h2 := mintedMsgs_map mint bubbles 0
  rw [List.drop_zero] at h2
  exact ⟨by rw [h1], h2, by rw [h1]⟩

/-- Witness for C1: a concrete two-fragment batch. -/
theorem C1_witness :
    let mint : Nat → Nat × String := fun i => (1000 + 500 * i, "10:00")
    let s : AppState :=
      { messages := [], inputText := "", isTyping := true,
        token := some "tok", redirects := [] }
    (revealFrom mint ["a", "b"] 0 s).messages =
        s.messages ++ mintedMsgs mint ["a", "b"] 0
      ∧ (mintedMsgs mint ["a", "b"] 0).map (fun m => (m.text, m.sender)) =
        ["a", "b"].map (fun b => (b, Sender.nila))
      ∧ (revealFrom mint ["a", "b"] 0 s).isTyping = false :=
  C1_staged_player_appends_per_fragment _ _ _ (by simp)

/-- C5: the effective delay before the reveal at cursor `index` is
`D + J` with `D = 800` when `index = 0` and `D = 400` otherwise and
`J = r * 500` the jitter drawn from `Math.random() = r` in `[0, 1)`,
so the jitter lies in `[0, 500)`, the first delay in `[800, 1300)` and
every later delay in `[400, 900)`. -/
theorem C5_delay_formula (index : Nat) (r : ℚ) (h0 : 0 ≤ r) (h1 : r < 1) :
    delayFor index r = (if index = 0 then (800 : ℚ) else 400) + jitter r
      ∧ 0 ≤ jitter r ∧ jitter r < 500
      ∧ (index = 0 → 800 ≤ delayFor index r ∧ delayFor index r < 1300)
      ∧ (index ≠ 0 → 400 ≤ delayFor index r ∧ delayFor index r < 900) := by
  have hj0 : 0 ≤ jitter r := by
    unfold jitter
    positivity
  have hj1 : jitter r < 500 := by
    unfold jitter
    nlinarith
  unfold delayFor baseDelay
  have half : (800 : ℚ) / 2 = 400 := by norm_num
  refine ⟨?_, hj0, hj1, ?_, ?_⟩
  · split
    · rfl
    · rw [half]
  · intro h
    rw [if_pos h]
    exact ⟨by linarith, by linarith⟩
  · intro h
    rw [if_neg h, half]
    exact ⟨by linarith, by linarith⟩

/-- Witness for C5: the first reveal with `Math.random() = 1/2` lies in
`[800, 1300)`. -/
theorem C5_witness : 800 ≤ delayFor 0 (1 / 2) ∧ delayFor 0 (1 / 2) < 1300 :=
  (C5_delay_formula 0 (1 / 2) (by norm_num) (by norm_num)).2.2.2.1 rfl

/-- C6: on an empty fragment batch the staged reply player immediately
sets the typing flag to false, appends no message, and schedules no
delay. -/
theorem C6_empty_batch (mint : Nat → Nat × String) (rand : Nat → ℚ)
    (s : AppState) :
    revealFrom mint [] 0 s = { s with isTyping := false }
      ∧ (revealFrom mint [] 0 s).messages = s.messages
      ∧ scheduledDelays rand [] = [] := by
  have h : revealFrom mint [] 0 s = { s with isTyping := false } := by
    unfold revealFrom
    simp
  exact ⟨h, by rw [h], by unfold scheduledDelays; simp⟩

/-- C3: a send whose trimmed input text is empty never mutates the
message log, never clears the input field, never sets the typing flag,
and never calls the service, whatever the token state and whatever the
network would have answered. -/
theorem C3_empty_input_rejected (mint : Nat → Nat × String) (now : Nat)
    (ts : String) (res : SendResult) (s : AppState)
    (h : jsTrim s.inputText = "") :
    (handleSend mint now ts res s).1.messages = s.messages
      ∧ (handleSend mint now ts res s).1.inputText = s.inputText
      ∧ (handleSend mint now ts res s).1.isTyping = s.isTyping
      ∧ (handleSend mint now ts res s).1.token = s.token
      ∧ (handleSend mint now ts res s).2 = false := by
  cases htok : s.token with
  | none =>
      unfold handleSend
      rw [htok]
      simp [pushRedirect, htok]
  | some tok =>
      unfold handleSend
      rw [htok]
      simp [h, htok]

/-- Witness for C3: a whitespace-only input with a credential present is
a complete no-op and makes no network call. -/
theorem C3_witness :
    let s : AppState :=
      { messages := [], inputText := "  ", isTyping := false,
        token := some "tok", redirects := [] }
    let mint : Nat → Nat × String := fun _ => (7, "09:30")
    (handleSend mint 7 "09:30" (SendResult.ok ["hi"]) s).1.messages = s.messages
      ∧ (handleSend mint 7 "09:30" (SendResult.ok ["hi"]) s).1.inputText = s.inputText
      ∧ (handleSend mint 7 "09:30" (SendResult.ok ["hi"]) s).1.isTyping = s.isTyping
      ∧ (handleSend mint 7 "09:30" (SendResult.ok ["hi"]) s).1.token = s.token
      ∧ (handleSend mint 7 "09:30" (SendResult.ok ["hi"]) s).2 = false :=
  C3_empty_input_rejected _ 7 "09:30" _ _ (by decide)

/-- C10: the token check of `handleSend` precedes the empty-input check:
with no stored credential, every send attempt navigates to login and
makes no network call, whatever the input text, including an empty or
whitespace-only one. -/
theorem C10_credential_check_first (mint : Nat → Nat × String) (now : Nat)
    (ts : String) (res : SendResult) (s : AppState) (h : s.token = none) :
    (handleSend mint now ts res s).1 = pushRedirect s
      ∧ (handleSend mint now ts res s).1.redirects = s.redirects ++ ["/login"]
      ∧ (handleSend mint now ts res s).2 = false := by
  unfold handleSend
  rw [h]
  exact ⟨rfl, rfl, rfl⟩

/-- Witness for C10: a send with no credential and an empty input still
signals the login redirect and calls no service. -/
theorem C10_witness :
    let s : AppState :=
      { messages := [], inputText := "", isTyping := false,
        token := none, redirects := [] }
    let mint : Nat → Nat × String := fun _ => (7, "09:30")
    (handleSend mint 7 "09:30" (SendResult.err none) s).1 = pushRedirect s
      ∧ (handleSend mint 7 "09:30" (SendResult.err none) s).1.redirects =
        s.redirects ++ ["/login"]
      ∧ (handleSend mint 7 "09:30" (SendResult.err none) s).2 = false :=
  C10_credential_check_first _ 7 "09:30" _ _ rfl

/-- C7: with a credential present and a non-empty trimmed input, the
send appends the optimistic user message carrying the raw input text
before the service call is made, and no outcome of that call (success,
401, or any other failure) ever removes it: the final log extends the
old log by the user message followed only by reply messages. -/
theorem C7_optimistic_append_never_rolled_back (mint : Nat → Nat × String)
    (now : Nat) (ts : String) (res : SendResult) (s : AppState) (tok : String)
    (h1 : s.token = some tok) (h2 : jsTrim s.inputText ≠ "") :
    (sendOptimistic now ts s).messages =
        s.messages ++ [mkUserMsg now ts s.inputText]
      ∧ handleSend mint now ts res s =
        (handleSendOutcome mint res (sendOptimistic now ts s), true)
      ∧ ∃ rest, (handleSend mint now ts res s).1.messages =
        s.messages ++ mkUserMsg now ts s.inputText :: rest := by
  have hpipeline : handleSend mint now ts res s =
      (handleSendOutcome mint res (sendOptimistic now ts s), true) := by
    unfold handleSend
    rw [h1]
    simp [h2]
  refine ⟨rfl, hpipeline, ?_⟩
  rw [hpipeline]
  cases res with
  | ok bubbles =>
      refine ⟨mintedMsgs mint bubbles 0, ?_⟩
      simp [handleSendOutcome, revealFrom_eq, sendOptimistic]
  | err status =>
      refine ⟨[], ?_⟩
      simp only [handleSendOutcome]
      split <;> simp [pushRedirect, sendOptimistic]

/-- Witness for C7: a concrete send answered with a non-401 failure
keeps the optimistic user message in the log. -/
theorem C7_witness :
    let s : AppState :=
      { messages := [], inputText := "How are you?", isTyping := false,
        token := some "tok", redirects := [] }
    let mint : Nat → Nat × String := fun _ => (50, "09:31")
    (sendOptimistic 42 "09:30" s).messages =
        s.messages ++ [mkUserMsg 42 "09:30" s.inputText]
      ∧ handleSend mint 42 "09:30" (SendResult.err (some 500)) s =
        (handleSendOutcome mint (SendResult.err (some 500))
          (sendOptimistic 42 "09:30" s), true)
      ∧ ∃ rest, (handleSend mint 42 "09:30" (SendResult.err (some 500)) s).1.messages =
        s.messages ++ mkUserMsg 42 "09:30" s.inputText :: rest :=
  C7_optimistic_append_never_rolled_back _ 42 "09:30" _ _ "tok" rfl (by decide)

/-- C8: with a credential present at activation, a successful history
fetch replaces the message log verbatim with the returned sequence and
signals no redirect, while a failure that is not a 401 (unreachable
service or any other status) leaves the whole state unchanged — in
particular the message log stays empty when it was empty — and signals
no redirect. -/
theorem C8_history_load (s : AppState) (tok : String)
    (h : s.token = some tok) :
    (∀ hist, (fetchHistory (FetchResult.ok hist) s).1.messages = hist
      ∧ (fetchHistory (FetchResult.ok hist) s).1.redirects = s.redirects)
      ∧ (∀ status, status ≠ some 401 →
        (fetchHistory (FetchResult.err status) s).1 = s
          ∧ (fetchHistory (FetchResult.err status) s).2 = true) := by
  constructor
  · intro hist
    unfold fetchHistory
    rw [h]
    exact ⟨rfl, rfl⟩
  · intro status hst
    unfold fetchHistory
    rw [h]
    simp [hst]

/-- Witness for C8: a concrete one-message history is installed
verbatim, and an unreachable service (no HTTP status) changes nothing. -/
theorem C8_witness :
    let s : AppState :=
      { messages := [], inputText := "", isTyping := false,
        token := some "tok", redirects := [] }
    (∀ hist, (fetchHistory (FetchResult.ok hist) s).1.messages = hist
      ∧ (fetchHistory (FetchResult.ok hist) s).1.redirects = s.redirects)
      ∧ (∀ status, status ≠ some 401 →
        (fetchHistory (FetchResult.err status) s).1 = s
          ∧ (fetchHistory (FetchResult.err status) s).2 = true) :=
  C8_history_load _ "tok" rfl

/-- Counterexample to C2 as stated: a send made with credential `"tok"`
stored and input `"hi"` reaches the service (the boolean is true) and
fails with HTTP 401, yet afterwards the stored credential is still
`"tok"` — the catch branch of `handleSend` navigates to login without
removing the token, so a subsequent `get()` does not return absent. -/
theorem C2_counterexample :
    let s : AppState :=
      { messages := [], inputText := "hi", isTyping := false,
        token := some "tok", redirects := [] }
    let mint : Nat → Nat × String := fun _ => (5, "09:30")
    (handleSend mint 5 "09:30" (SendResult.err (some 401)) s).2 = true
      ∧ (handleSend mint 5 "09:30" (SendResult.err (some 401)) s).1.token =
        some "tok"
      ∧ (handleSend mint 5 "09:30" (SendResult.err (some 401)) s).1.redirects =
        ["/login"] := by
  refine ⟨rfl, rfl, rfl⟩

/-- C2 as amended: an authorization failure (HTTP 401) on the history
fetch clears the stored credential — a subsequent `get()` returns
absent — and signals the login redirect; an authorization failure on a
send signals the login redirect and clears the typing flag but leaves
the stored credential in place. -/
theorem C2_amended_auth_failure (s : AppState) (tok : String)
    (h : s.token = some tok) :
    ((fetchHistory (FetchResult.err (some 401)) s).1.token = none
      ∧ (fetchHistory (FetchResult.err (some 401)) s).1.redirects =
        s.redirects ++ ["/login"])
      ∧ (∀ mint now ts, jsTrim s.inputText ≠ "" →
        (handleSend mint now ts (SendResult.err (some 401)) s).1.token = s.token
          ∧ (handleSend mint now ts (SendResult.err (some 401)) s).1.redirects =
            s.redirects ++ ["/login"]
          ∧ (handleSend mint now ts (SendResult.err (some 401)) s).1.isTyping =
            false) := by
  constructor
  · unfold fetchHistory
    rw [h]
    simp [pushRedirect]
  · intro mint now ts hin
    unfold handleSend
    rw [h]
    simp only [hin, if_neg hin, ite_false]
    simp [handleSendOutcome, pushRedirect, sendOptimistic, h]

/-- Witness for C2 as amended: concrete 401 failures on both paths. -/
theorem C2_amended_witness :
    let s : AppState :=
      { messages := [], inputText := "hi", isTyping := false,
        token := some "tok", redirects := [] }
    ((fetchHistory (FetchResult.err (some 401)) s).1.token = none
      ∧ (fetchHistory (FetchResult.err (some 401)) s).1.redirects =
        s.redirects ++ ["/login"])
      ∧ (∀ mint now ts, jsTrim s.inputText ≠ "" →
        (handleSend mint now ts (SendResult.err (some 401)) s).1.token = s.token
          ∧ (handleSend mint now ts (SendResult.err (some 401)) s).1.redirects =
            s.redirects ++ ["/login"]
          ∧ (handleSend mint now ts (SendResult.err (some 401)) s).1.isTyping =
            false) :=
  C2_amended_auth_failure _ "tok" rfl

/-- A clock stuck in the millisecond tick 1000, for exercising two sends
within the same tick. -/
def sameTickMint : Nat → Nat × String := fun _ => (1000, "10:00")

/-- Initial state of the same-tick scenario: credential present, input
text "hi". -/
def sameTickState0 : AppState :=
  { messages := [], inputText := "hi", isTyping := false,
    token := some "tok", redirects := [] }

/-- State after the first send of the same-tick scenario, with
`Date.now() = 1000` and the service unreachable (the failure only stops
the reply; the optimistic user message stays). -/
def sameTickState1 : AppState :=
  (handleSend sameTickMint 1000 "10:00" (SendResult.err none) sameTickState0).1

/-- State after the user types "there" and sends again within the same
millisecond tick. -/
def sameTickState2 : AppState :=
  (handleSend sameTickMint 1000 "10:00" (SendResult.err none)
    { sameTickState1 with inputText := "there" }).1

/-- C9, evaluated at the failing input: two sends whose `Date.now()`
falls in the same millisecond tick (both 1000).  Both user messages are
minted with `id = Date.now()`, so two distinct messages present in the
log carry the same id — the time-derived identifier does not tolerate
same-tick collisions. -/
theorem C9_same_tick_id_collision :
    sameTickState2.messages =
        [mkUserMsg 1000 "10:00" "hi", mkUserMsg 1000 "10:00" "there"]
      ∧ mkUserMsg 1000 "10:00" "hi" ≠ mkUserMsg 1000 "10:00" "there"
      ∧ (mkUserMsg 1000 "10:00" "hi").id = (mkUserMsg 1000 "10:00" "there").id := by
  refine ⟨by decide, by decide, rfl⟩

/-- A timer callback firing on an unmounted component instance changes
nothing: both state-setter dispatches are discarded. -/
theorem fireReveal_unmounted (mint : Nat → Nat × String) (bubbles : List String)
    (index : Nat) (s : LiveState) (h : s.mounted = false) :
    fireReveal mint bubbles index s = s := by
  unfold fireReveal
  split
  · simp [setMessagesLive, setTypingLive, h]
  · rfl

/-- Any sequence of timer callbacks firing on an unmounted instance
changes nothing. -/
theorem applyFires_unmounted (mint : Nat → Nat × String)
    (fires : List (List String × Nat)) :
    ∀ s : LiveState, s.mounted = false → applyFires mint fires s = s := by
  induction fires with
  | nil => intro s _; rfl
  | cons hd tl ih =>
      intro s h
      unfold applyFires
      simp only [List.foldl_cons]
      have hfix := fireReveal_unmounted mint hd.1 hd.2 s h
      rw [hfix]
      exact ih s h

/-- C4: once the controller is torn down, any sequence of reveal timers
that was still pending and later fires appends no message and mutates
neither the typing flag nor the stored credential: the state after the
fires is exactly the state at teardown. -/
theorem C4_teardown_blocks_pending_reveals (mint : Nat → Nat × String)
    (fires : List (List String × Nat)) (s : LiveState) :
    applyFires mint fires (teardown s) = teardown s
      ∧ (applyFires mint fires (teardown s)).messages = s.messages
      ∧ (applyFires mint fires (teardown s)).isTyping = s.isTyping
      ∧ (applyFires mint fires (teardown s)).token = s.token := by
  have h : applyFires mint fires (teardown s) = teardown s :=
    applyFires_unmounted mint fires (teardown s) rfl
  exact ⟨h, by rw [h]; rfl, by rw [h]; rfl, by rw [h]; rfl⟩

end Nila
